import Mathlib

/-!
Shallow embedding of the crowdfunding program
(src/programs/crowdfunding/src/instructions.rs and errors.rs).

Conventions of the embedding:
* `u64` fields become `Nat`.  All arithmetic the instructions perform on
  record fields (`checked_sub(..).unwrap_or(0)`, `min`, `+=`) is exact on
  the reachable range, except the raw lamport manipulation
  (`**account.try_borrow_mut_lamports()? -= / += amount`), which is plain
  `u64` arithmetic in the source and is modelled by `wrapSub` / `wrapAdd`
  (arithmetic mod 2^64).
* `i64` timestamps become `Int`; the instructions only compare them.
* Account keys (`Pubkey`) become `Nat`.
* `require!(cond, err)` becomes `if ¬ cond then .error err else ...`,
  written with the complementary comparison (`now < start_at` for
  `¬ (now >= start_at)` and so on).
* a Rust `Result` becomes `Except Errors`; a successful instruction
  returns the mutated accounts (campaign, contribution, lamport balances)
  instead of mutating them in place.  An `.error` result models the whole
  transaction aborting with no state change.
-/

namespace Crowdfunding

/-- Status of a campaign, from `CampaignStatus` in the program state. -/
inductive CampaignStatus where
  | Active
  | Cancelled
  | Closed
deriving DecidableEq, Repr

/-- The `Campaign` account, from the program state (fields as initialized
by `create_campaign` and mutated by the other instructions). -/
structure Campaign where
  title : String
  description : String
  org_name : String
  project_link : String
  project_image : String
  authority : Nat
  goal : Nat
  total_donated : Nat
  donation_completed : Bool
  claimed : Bool
  start_at : Int
  end_at : Int
  status : CampaignStatus
deriving DecidableEq, Repr

/-- The `Contribution` account: donor identity and outstanding amount. -/
structure Contribution where
  authority : Nat
  amount : Nat
deriving DecidableEq, Repr

/-- Error codes of the program, from errors.rs (plus `InsufficientFunds`,
the failure of the system-program transfer invoked by `donate`). -/
inductive Errors where
  | StartTimeEarly
  | EndTimeSmall
  | GoalZero
  | CampaignStarted
  | CampaignOver
  | DonationCompleted
  | AmountZero
  | CampaignNotStarted
  | CampaignNotOver
  | DonationNotCompleted
  | DonationsClaimed
  | InsufficientFunds
deriving DecidableEq, Repr

/-- Modulus of `u64` arithmetic. -/
def U64LIMIT : Nat := 2 ^ 64

/-- Wrapping `u64` subtraction, modelling `**account.lamports -= amount`. -/
def wrapSub (a b : Nat) : Nat := (a + (U64LIMIT - b % U64LIMIT)) % U64LIMIT

/-- Wrapping `u64` addition, modelling `**account.lamports += amount`. -/
def wrapAdd (a b : Nat) : Nat := (a + b) % U64LIMIT

/-- Modelled from the spec: the Ledger Transfer Service
(`system_program::transfer`, invoked by `donate` through CPI; the system
program itself is not part of this repository).  Per spec §6 it moves
`amount` from `fromBal` to `toBal` atomically and fails on insufficient
balance. -/
def transfer (fromBal toBal amount : Nat) : Except Errors (Nat × Nat) :=
  if fromBal < amount then .error .InsufficientFunds
  else .ok (fromBal - amount, toBal + amount)

/-- Embedding of `create_campaign` (instructions.rs lines 7-56): validates
`start_at >= now`, `end_at > start_at`, `goal > 0`, then initializes the
campaign account. -/
def create_campaign (now : Int) (title description org_name project_link project_image : String)
    (authority : Nat) (goal : Nat) (start_at end_at : Int) : Except Errors Campaign :=
  if start_at < now then .error .StartTimeEarly
  else if end_at ≤ start_at then .error .EndTimeSmall
  else if goal = 0 then .error .GoalZero
  else .ok {
    title := title
    description := description
    org_name := org_name
    project_link := project_link
    project_image := project_image
    authority := authority
    goal := goal
    total_donated := 0
    donation_completed := false
    claimed := false
    start_at := start_at
    end_at := end_at
    status := CampaignStatus.Active }

/-- Embedding of `cancel_campaign` (instructions.rs lines 58-78): requires
`now < start_at`, then sets the status to `Cancelled`. -/
def cancel_campaign (now : Int) (c : Campaign) : Except Errors Campaign :=
  if c.start_at ≤ now then .error .CampaignStarted
  else .ok { c with status := CampaignStatus.Cancelled }

/-- Embedding of `donate` (instructions.rs lines 80-129): window and
completion checks, capping at the remaining goal
(`goal.checked_sub(total_donated).unwrap_or(0)` is truncated `Nat`
subtraction), the CPI transfer, then the record mutations.  Takes the
donor's lamport balance and the campaign account's lamport balance
(escrow); returns the updated campaign, contribution and both balances. -/
def donate (now : Int) (c : Campaign) (contrib : Contribution) (signer : Nat)
    (donorBal escrow amount : Nat) : Except Errors (Campaign × Contribution × Nat × Nat) :=
  if now < c.start_at then .error .CampaignNotStarted
  else if c.end_at < now then .error .CampaignOver
  else if c.donation_completed then .error .DonationCompleted
  else if amount = 0 then .error .AmountZero
  else
    let remaining_amount := c.goal - c.total_donated
    let actual_donation := min amount remaining_amount
    match transfer donorBal escrow actual_donation with
    | .error e => .error e
    | .ok (donorBal2, escrow2) =>
      let c2 : Campaign := { c with total_donated := c.total_donated + actual_donation }
      let contrib2 : Contribution :=
        { contrib with authority := signer, amount := contrib.amount + actual_donation }
      let c3 : Campaign :=
        if c2.goal ≤ c2.total_donated then { c2 with donation_completed := true } else c2
      .ok (c3, contrib2, donorBal2, escrow2)

/-- Embedding of `cancel_donation` (instructions.rs lines 131-158):
requires `now > end_at` and `!donation_completed`, then moves
`contribution.amount` lamports from the campaign account to the donor by
direct lamport manipulation.  Note: the source mutates neither the
campaign record nor the contribution record (in particular it does NOT
zero `contribution.amount`), so both are returned unchanged. -/
def cancel_donation (now : Int) (c : Campaign) (contrib : Contribution)
    (escrow donorBal : Nat) : Except Errors (Campaign × Contribution × Nat × Nat) :=
  if now ≤ c.end_at then .error .CampaignNotOver
  else if c.donation_completed then .error .DonationCompleted
  else
    let amount := contrib.amount
    .ok (c, contrib, wrapSub escrow amount, wrapAdd donorBal amount)

/-- Embedding of `claim_donations` (instructions.rs lines 160-189):
requires `now > end_at`, `donation_completed`, `!claimed`; moves
`total_donated` lamports from the campaign account to the authority and
sets `claimed := true`. -/
def claim_donations (now : Int) (c : Campaign) (escrow authBal : Nat) :
    Except Errors (Campaign × Nat × Nat) :=
  if now ≤ c.end_at then .error .CampaignNotOver
  else if ¬ c.donation_completed then .error .DonationNotCompleted
  else if c.claimed then .error .DonationsClaimed
  else
    let amount := c.total_donated
    .ok ({ c with claimed := true }, wrapSub escrow amount, wrapAdd authBal amount)

/-- Embedding of `update_campaign_metadata` (instructions.rs lines
191-228): each supplied `Option` replaces the corresponding text field;
no precondition, always succeeds. -/
def update_campaign_metadata (c : Campaign)
    (title description org_name project_link project_image : Option String) :
    Except Errors Campaign :=
  let c := match title with
    | some new_title => { c with title := new_title }
    | none => c
  let c := match description with
    | some new_description => { c with description := new_description }
    | none => c
  let c := match org_name with
    | some new_org_name => { c with org_name := new_org_name }
    | none => c
  let c := match project_link with
    | some new_project_link => { c with project_link := new_project_link }
    | none => c
  let c := match project_image with
    | some new_project_image => { c with project_image := new_project_image }
    | none => c
  .ok c

/-- Embedding of `refund_donations` (instructions.rs lines 230-257): the
source body is identical to `cancel_donation` (only the emitted event and
log message differ, which are outside the model). -/
def refund_donations (now : Int) (c : Campaign) (contrib : Contribution)
    (escrow donorBal : Nat) : Except Errors (Campaign × Contribution × Nat × Nat) :=
  if now ≤ c.end_at then .error .CampaignNotOver
  else if c.donation_completed then .error .DonationCompleted
  else
    let amount := contrib.amount
    .ok (c, contrib, wrapSub escrow amount, wrapAdd donorBal amount)

/-- Embedding of `extend_campaign` (instructions.rs lines 259-281):
requires `new_end_at > end_at` and `new_end_at > now`, then sets
`end_at := new_end_at`. -/
def extend_campaign (now : Int) (c : Campaign) (new_end_at : Int) : Except Errors Campaign :=
  if new_end_at ≤ c.end_at then .error .EndTimeSmall
  else if new_end_at ≤ now then .error .StartTimeEarly
  else .ok { c with end_at := new_end_at }

/-- Embedding of `close_campaign` (instructions.rs lines 283-303):
requires `now > end_at`, then sets the status to `Closed`.  Note: it does
not inspect the current status. -/
def close_campaign (now : Int) (c : Campaign) : Except Errors Campaign :=
  if now ≤ c.end_at then .error .CampaignNotOver
  else .ok { c with status := CampaignStatus.Closed }

/-!
Operation-level transition system.  A step is one successful instruction
on a campaign, executed at a timestamp `t'` no earlier than the previous
timestamp `t` (the Time Source of spec §2 is monotonically
non-decreasing).  The contribution accounts and lamport balances an
instruction touches are chosen freely at each step (untrusted callers,
arbitrary ordering, spec §1).  `create_campaign` only ever initializes a
fresh account, so it appears in `Reachable` as the base case, not as a
step. -/

/-- One successful instruction on a campaign at time `t'`, from a state
reached at time `t ≤ t'`. -/
inductive Step : Int → Campaign → Int → Campaign → Prop where
  | donate_step (t t' : Int) (c c' : Campaign) (contrib contrib' : Contribution)
      (signer donorBal escrow amount donorBal' escrow' : Nat) :
      t ≤ t' →
      donate t' c contrib signer donorBal escrow amount = .ok (c', contrib', donorBal', escrow') →
      Step t c t' c'
  | cancel_step (t t' : Int) (c c' : Campaign) :
      t ≤ t' → cancel_campaign t' c = .ok c' → Step t c t' c'
  | cancel_donation_step (t t' : Int) (c c' : Campaign) (contrib contrib' : Contribution)
      (escrow donorBal escrow' donorBal' : Nat) :
      t ≤ t' →
      cancel_donation t' c contrib escrow donorBal = .ok (c', contrib', escrow', donorBal') →
      Step t c t' c'
  | claim_step (t t' : Int) (c c' : Campaign) (escrow authBal escrow' authBal' : Nat) :
      t ≤ t' →
      claim_donations t' c escrow authBal = .ok (c', escrow', authBal') →
      Step t c t' c'
  | metadata_step (t t' : Int) (c c' : Campaign)
      (title description org_name project_link project_image : Option String) :
      t ≤ t' →
      update_campaign_metadata c title description org_name project_link project_image = .ok c' →
      Step t c t' c'
  | refund_step (t t' : Int) (c c' : Campaign) (contrib contrib' : Contribution)
      (escrow donorBal escrow' donorBal' : Nat) :
      t ≤ t' →
      refund_donations t' c contrib escrow donorBal = .ok (c', contrib', escrow', donorBal') →
      Step t c t' c'
  | extend_step (t t' : Int) (c c' : Campaign) (new_end_at : Int) :
      t ≤ t' → extend_campaign t' c new_end_at = .ok c' → Step t c t' c'
  | close_step (t t' : Int) (c c' : Campaign) :
      t ≤ t' → close_campaign t' c = .ok c' → Step t c t' c'

/-- A campaign state reachable at time `t`: either freshly created at `t`,
or obtained from a reachable state by one step. -/
inductive Reachable : Int → Campaign → Prop where
  | created (t : Int) (title description org_name project_link project_image : String)
      (authority goal : Nat) (start_at end_at : Int) (c : Campaign) :
      create_campaign t title description org_name project_link project_image
        authority goal start_at end_at = .ok c →
      Reachable t c
  | step (t : Int) (c : Campaign) (t' : Int) (c' : Campaign) :
      Reachable t c → Step t c t' c' → Reachable t' c'

/-!
Concrete states used by counterexamples, code-bug exhibits and witnesses.
-/

def sT : String := "t"
def sD : String := "d"
def sO : String := "o"
def sL : String := "l"
def sI : String := "i"

/-- A campaign as created at time 0: goal 100, window [10, 20]. -/
def camp0 : Campaign := {
  title := sT, description := sD, org_name := sO, project_link := sL, project_image := sI
  authority := 1, goal := 100, total_donated := 0
  donation_completed := false, claimed := false
  start_at := 10, end_at := 20, status := CampaignStatus.Active }

/-- `camp0` after `cancel_campaign` at time 5. -/
def camp1 : Campaign := { camp0 with status := CampaignStatus.Cancelled }

/-- `camp1` after `close_campaign` at time 30. -/
def camp2 : Campaign := { camp0 with status := CampaignStatus.Closed }

/-- A fresh contribution account for donor 7. -/
def contrib0 : Contribution := { authority := 7, amount := 0 }

/-- `camp0` after donor 7 donates 60 at time 15. -/
def campA : Campaign := { camp0 with total_donated := 60 }

/-- Contribution of donor 7 after donating 60. -/
def contribA : Contribution := { authority := 7, amount := 60 }

/-- `camp1` after donor 7 donates 50 at time 15 (donation on a cancelled
campaign). -/
def camp1d : Campaign := { camp1 with total_donated := 50 }

/-- Contribution of donor 7 after donating 50. -/
def contrib1 : Contribution := { authority := 7, amount := 50 }

/-- `camp0` after donor 7 donates the full goal at time 15. -/
def campB : Campaign := { camp0 with total_donated := 100, donation_completed := true }

/-- Contribution of donor 7 after donating 100. -/
def contribB : Contribution := { authority := 7, amount := 100 }

/-- `campB` after the authority claims at time 30. -/
def campBclaimed : Campaign := { campB with claimed := true }

/-- `campB` after a further `close_campaign` at time 40. -/
def campBclosed : Campaign := { campB with status := CampaignStatus.Closed }

/-- `campBclaimed` after a further `close_campaign` at time 40. -/
def campBclaimedClosed : Campaign := { campBclaimed with status := CampaignStatus.Closed }

example : create_campaign 0 sT sD sO sL sI 1 100 10 20 = .ok camp0 := rfl
example : cancel_campaign 5 camp0 = .ok camp1 := rfl
example : close_campaign 30 camp1 = .ok camp2 := rfl
example : donate 15 camp0 contrib0 7 100 60 60 = .ok (campA, contribA, 40, 120) := rfl
example : donate 15 camp1 contrib0 7 100 0 50 = .ok (camp1d, contrib1, 50, 50) := rfl
example : donate 15 camp0 contrib0 7 200 60 150 = .ok (campB, contribB, 100, 160) := rfl
example : cancel_donation 30 campA contribA 120 0 = .ok (campA, contribA, 60, 60) := rfl
example : cancel_donation 30 campA contribA 60 60 = .ok (campA, contribA, 0, 120) := rfl
example : claim_donations 30 campB 100 0 = .ok (campBclaimed, 0, 100) := rfl
example : claim_donations 30 campBclaimed 100 0 = .error .DonationsClaimed := rfl
example : extend_campaign 15 camp0 40 = .ok { camp0 with end_at := 40 } := rfl

/-!
Inversion lemmas: what a successful instruction implies about its inputs
and outputs.
-/

theorem create_campaign_ok_inv {now : Int} {title description org_name project_link project_image : String}
    {authority goal : Nat} {start_at end_at : Int} {c : Campaign}
    (h : create_campaign now title description org_name project_link project_image
      authority goal start_at end_at = .ok c) :
    now ≤ start_at ∧ start_at < end_at ∧ 0 < goal ∧
    c = { title := title, description := description, org_name := org_name,
          project_link := project_link, project_image := project_image,
          authority := authority, goal := goal, total_donated := 0,
          donation_completed := false, claimed := false,
          start_at := start_at, end_at := end_at, status := CampaignStatus.Active } := by
  unfold create_campaign at h
  split at h
  · cases h
  · split at h
    · cases h
    · split at h
      · cases h
      · cases h
        refine ⟨by omega, by omega, by omega, rfl⟩

theorem cancel_campaign_ok_inv {now : Int} {c c' : Campaign}
    (h : cancel_campaign now c = .ok c') :
    now < c.start_at ∧ c' = { c with status := CampaignStatus.Cancelled } := by
  unfold cancel_campaign at h
  split at h
  · cases h
  · cases h
    exact ⟨by omega, rfl⟩

theorem extend_campaign_ok_inv {now new_end_at : Int} {c c' : Campaign}
    (h : extend_campaign now c new_end_at = .ok c') :
    c.end_at < new_end_at ∧ now < new_end_at ∧ c' = { c with end_at := new_end_at } := by
  unfold extend_campaign at h
  split at h
  · cases h
  · split at h
    · cases h
    · cases h
      exact ⟨by omega, by omega, rfl⟩

theorem close_campaign_ok_inv {now : Int} {c c' : Campaign}
    (h : close_campaign now c = .ok c') :
    c.end_at < now ∧ c' = { c with status := CampaignStatus.Closed } := by
  unfold close_campaign at h
  split at h
  · cases h
  · cases h
    exact ⟨by omega, rfl⟩

theorem claim_donations_ok_inv {now : Int} {c c' : Campaign} {escrow authBal es' ab' : Nat}
    (h : claim_donations now c escrow authBal = .ok (c', es', ab')) :
    c.end_at < now ∧ c.donation_completed = true ∧ c.claimed = false ∧
    c' = { c with claimed := true } ∧
    es' = wrapSub escrow c.total_donated ∧ ab' = wrapAdd authBal c.total_donated := by
  unfold claim_donations at h
  split at h
  · cases h
  · split at h
    · cases h
    · split at h
      · cases h
      · rename_i hover hcompleted hclaimed
        simp only [Except.ok.injEq, Prod.mk.injEq] at h
        obtain ⟨hc, hes, hab⟩ := h
        refine ⟨by omega, by simpa using hcompleted, by simpa using hclaimed,
          hc.symm, hes.symm, hab.symm⟩

theorem cancel_donation_ok_inv {now : Int} {c c' : Campaign} {contrib contrib' : Contribution}
    {escrow donorBal es' db' : Nat}
    (h : cancel_donation now c contrib escrow donorBal = .ok (c', contrib', es', db')) :
    c.end_at < now ∧ c.donation_completed = false ∧
    c' = c ∧ contrib' = contrib ∧
    es' = wrapSub escrow contrib.amount ∧ db' = wrapAdd donorBal contrib.amount := by
  unfold cancel_donation at h
  split at h
  · cases h
  · split at h
    · cases h
    · rename_i hover hcompleted
      simp only [Except.ok.injEq, Prod.mk.injEq] at h
      obtain ⟨hc, hcontrib, hes, hdb⟩ := h
      refine ⟨by omega, by simpa using hcompleted, hc.symm, hcontrib.symm, hes.symm, hdb.symm⟩

/-- The two settlement entry points have definitionally equal bodies. -/
theorem refund_donations_eq : refund_donations = cancel_donation := rfl

theorem update_campaign_metadata_eq (c : Campaign)
    (title description org_name project_link project_image : Option String) :
    update_campaign_metadata c title description org_name project_link project_image =
      .ok { c with
        title := title.getD c.title
        description := description.getD c.description
        org_name := org_name.getD c.org_name
        project_link := project_link.getD c.project_link
        project_image := project_image.getD c.project_image } := by
  cases title <;> cases description <;> cases org_name <;>
    cases project_link <;> cases project_image <;> rfl

theorem donate_ok_inv {now : Int} {c : Campaign} {contrib : Contribution}
    {signer donorBal escrow amount : Nat}
    {c' : Campaign} {contrib' : Contribution} {db' es' : Nat}
    (h : donate now c contrib signer donorBal escrow amount = .ok (c', contrib', db', es')) :
    c.start_at ≤ now ∧ now ≤ c.end_at ∧ c.donation_completed = false ∧ 0 < amount ∧
    min amount (c.goal - c.total_donated) ≤ donorBal ∧
    c' = { c with
      total_donated := c.total_donated + min amount (c.goal - c.total_donated),
      donation_completed :=
        decide (c.goal ≤ c.total_donated + min amount (c.goal - c.total_donated)) } ∧
    contrib' = { contrib with
      authority := signer,
      amount := contrib.amount + min amount (c.goal - c.total_donated) } ∧
    db' = donorBal - min amount (c.goal - c.total_donated) ∧
    es' = escrow + min amount (c.goal - c.total_donated) := by
  unfold donate transfer at h
  split at h
  · cases h
  · split at h
    · cases h
    · split at h
      · cases h
      · split at h
        · cases h
        · rename_i hns hov hcompleted hamount
          dsimp only [] at h
          split at h
          · rename_i e heq
            split at heq
            · cases h
            · cases heq
          · rename_i db2 es2 heq
            split at heq
            · cases heq
            · rename_i hbal
              cases heq
              split at h
              · rename_i hreached
                cases h
                refine ⟨by omega, by omega, by simpa using hcompleted, by omega, by omega,
                  ?_, rfl, rfl, rfl⟩
                simp only [decide_eq_true hreached]
              · rename_i hnot
                cases h
                refine ⟨by omega, by omega, by simpa using hcompleted, by omega, by omega,
                  ?_, rfl, rfl, rfl⟩
                have hfalse : decide (c.goal ≤ c.total_donated +
                    min amount (c.goal - c.total_donated)) = false := by
                  simpa using hnot
                have hcf : c.donation_completed = false := by simpa using hcompleted
                rw [hfalse, ← hcf]

/-!
Invariants of reachable states.
-/

/-- Record-level invariant of a campaign account. -/
def CampaignInv (c : Campaign) : Prop :=
  c.total_donated ≤ c.goal ∧
  c.donation_completed = decide (c.goal ≤ c.total_donated) ∧
  0 < c.goal ∧ c.start_at < c.end_at

/-- Invariant of a reachable (time, campaign) pair: the record invariant,
plus the fact that a `Closed` status was necessarily set after `end_at`,
hence after `start_at`. -/
def StateInv (t : Int) (c : Campaign) : Prop :=
  CampaignInv c ∧ (c.status = CampaignStatus.Closed → c.start_at < t)

theorem step_inv {t : Int} {c : Campaign} {t' : Int} {c' : Campaign}
    (hs : Step t c t' c') (h : StateInv t c) : StateInv t' c' := by
  obtain ⟨⟨h1, h2, h3, h4⟩, h5⟩ := h
  cases hs with
  | donate_step =>
    rename_i contrib contrib' signer db es amt db' es' ht hop
    obtain ⟨_, _, _, _, _, hc, _, _, _⟩ := donate_ok_inv hop
    subst hc
    refine ⟨⟨by dsimp only []; omega, rfl, h3, h4⟩, ?_⟩
    intro hcl
    exact lt_of_lt_of_le (h5 hcl) ht
  | cancel_step =>
    rename_i ht hop
    obtain ⟨hlt, hc⟩ := cancel_campaign_ok_inv hop
    subst hc
    exact ⟨⟨h1, h2, h3, h4⟩, by intro hcl; cases hcl⟩
  | cancel_donation_step =>
    rename_i contrib contrib' es db es' db' ht hop
    obtain ⟨_, _, hc, _, _, _⟩ := cancel_donation_ok_inv hop
    subst hc
    refine ⟨⟨h1, h2, h3, h4⟩, fun hcl => lt_of_lt_of_le (h5 hcl) ht⟩
  | claim_step =>
    rename_i es ab es' ab' ht hop
    obtain ⟨_, _, _, hc, _, _⟩ := claim_donations_ok_inv hop
    subst hc
    refine ⟨⟨h1, h2, h3, h4⟩, fun hcl => lt_of_lt_of_le (h5 hcl) ht⟩
  | metadata_step =>
    rename_i ot od oo ol oi ht hop
    rw [update_campaign_metadata_eq] at hop
    cases hop
    refine ⟨⟨h1, h2, h3, h4⟩, fun hcl => lt_of_lt_of_le (h5 hcl) ht⟩
  | refund_step =>
    rename_i contrib contrib' es db es' db' ht hop
    rw [refund_donations_eq] at hop
    obtain ⟨_, _, hc, _, _, _⟩ := cancel_donation_ok_inv hop
    subst hc
    refine ⟨⟨h1, h2, h3, h4⟩, fun hcl => lt_of_lt_of_le (h5 hcl) ht⟩
  | extend_step =>
    rename_i nea ht hop
    obtain ⟨hgt, _, hc⟩ := extend_campaign_ok_inv hop
    subst hc
    refine ⟨⟨h1, h2, h3, by dsimp only []; omega⟩, fun hcl => lt_of_lt_of_le (h5 hcl) ht⟩
  | close_step =>
    rename_i ht hop
    obtain ⟨hgt, hc⟩ := close_campaign_ok_inv hop
    subst hc
    exact ⟨⟨h1, h2, h3, h4⟩, fun _ => by dsimp only []; omega⟩

theorem reachable_inv {t : Int} {c : Campaign} (h : Reachable t c) : StateInv t c := by
  induction h with
  | created t title description org_name project_link project_image authority goal
      start_at end_at c hcreate =>
    obtain ⟨hn, hw, hg, hc⟩ := create_campaign_ok_inv hcreate
    subst hc
    refine ⟨⟨by dsimp only []; omega, ?_, hg, hw⟩, by intro hcl; cases hcl⟩
    dsimp only []
    have : ¬ (goal ≤ 0) := by omega
    simp [this]
  | step t c t' c' _ hs ih => exact step_inv hs ih

/-!
Frame and monotonicity facts about single steps.
-/

theorem step_frame {t : Int} {c : Campaign} {t' : Int} {c' : Campaign}
    (hs : Step t c t' c') :
    t ≤ t' ∧ c'.start_at = c.start_at ∧ c.end_at ≤ c'.end_at ∧ c'.goal = c.goal ∧
    (c.donation_completed = true → c'.donation_completed = true) ∧
    (c.claimed = true → c'.claimed = true) := by
  cases hs with
  | donate_step =>
    rename_i contrib contrib' signer db es amt db' es' ht hop
    obtain ⟨_, _, hcompleted, _, _, hc, _, _, _⟩ := donate_ok_inv hop
    subst hc
    refine ⟨ht, rfl, le_refl _, rfl, ?_, fun hcl => hcl⟩
    intro hcl
    rw [hcompleted] at hcl
    cases hcl
  | cancel_step =>
    rename_i ht hop
    obtain ⟨_, hc⟩ := cancel_campaign_ok_inv hop
    subst hc
    exact ⟨ht, rfl, le_refl _, rfl, fun hcl => hcl, fun hcl => hcl⟩
  | cancel_donation_step =>
    rename_i contrib contrib' es db es' db' ht hop
    obtain ⟨_, _, hc, _, _, _⟩ := cancel_donation_ok_inv hop
    subst hc
    exact ⟨ht, rfl, le_refl _, rfl, fun hcl => hcl, fun hcl => hcl⟩
  | claim_step =>
    rename_i es ab es' ab' ht hop
    obtain ⟨_, _, _, hc, _, _⟩ := claim_donations_ok_inv hop
    subst hc
    exact ⟨ht, rfl, le_refl _, rfl, fun hcl => hcl, fun _ => rfl⟩
  | metadata_step =>
    rename_i ot od oo ol oi ht hop
    rw [update_campaign_metadata_eq] at hop
    cases hop
    exact ⟨ht, rfl, le_refl _, rfl, fun hcl => hcl, fun hcl => hcl⟩
  | refund_step =>
    rename_i contrib contrib' es db es' db' ht hop
    rw [refund_donations_eq] at hop
    obtain ⟨_, _, hc, _, _, _⟩ := cancel_donation_ok_inv hop
    subst hc
    exact ⟨ht, rfl, le_refl _, rfl, fun hcl => hcl, fun hcl => hcl⟩
  | extend_step =>
    rename_i nea ht hop
    obtain ⟨hgt, _, hc⟩ := extend_campaign_ok_inv hop
    subst hc
    exact ⟨ht, rfl, by dsimp only []; omega, rfl, fun hcl => hcl, fun hcl => hcl⟩
  | close_step =>
    rename_i ht hop
    obtain ⟨_, hc⟩ := close_campaign_ok_inv hop
    subst hc
    exact ⟨ht, rfl, le_refl _, rfl, fun hcl => hcl, fun hcl => hcl⟩

theorem step_status_cases {t : Int} {c : Campaign} {t' : Int} {c' : Campaign}
    (hs : Step t c t' c') :
    c'.status = c.status ∨
    (c'.status = CampaignStatus.Cancelled ∧ t' < c.start_at) ∨
    (c'.status = CampaignStatus.Closed ∧ c.end_at < t') := by
  cases hs with
  | donate_step =>
    rename_i contrib contrib' signer db es amt db' es' ht hop
    obtain ⟨_, _, _, _, _, hc, _, _, _⟩ := donate_ok_inv hop
    subst hc; exact Or.inl rfl
  | cancel_step =>
    rename_i ht hop
    obtain ⟨hlt, hc⟩ := cancel_campaign_ok_inv hop
    subst hc; exact Or.inr (Or.inl ⟨rfl, hlt⟩)
  | cancel_donation_step =>
    rename_i contrib contrib' es db es' db' ht hop
    obtain ⟨_, _, hc, _, _, _⟩ := cancel_donation_ok_inv hop
    subst hc; exact Or.inl rfl
  | claim_step =>
    rename_i es ab es' ab' ht hop
    obtain ⟨_, _, _, hc, _, _⟩ := claim_donations_ok_inv hop
    subst hc; exact Or.inl rfl
  | metadata_step =>
    rename_i ot od oo ol oi ht hop
    rw [update_campaign_metadata_eq] at hop
    cases hop; exact Or.inl rfl
  | refund_step =>
    rename_i contrib contrib' es db es' db' ht hop
    rw [refund_donations_eq] at hop
    obtain ⟨_, _, hc, _, _, _⟩ := cancel_donation_ok_inv hop
    subst hc; exact Or.inl rfl
  | extend_step =>
    rename_i nea ht hop
    obtain ⟨_, _, hc⟩ := extend_campaign_ok_inv hop
    subst hc; exact Or.inl rfl
  | close_step =>
    rename_i ht hop
    obtain ⟨hgt, hc⟩ := close_campaign_ok_inv hop
    subst hc; exact Or.inr (Or.inr ⟨rfl, hgt⟩)

/-- Forward evaluation of a successful `donate`: under the four
preconditions and a sufficient donor balance, the instruction succeeds and
credits exactly `min amount (goal - total_donated)`. -/
theorem donate_ok_eq {now : Int} {c : Campaign} {contrib : Contribution}
    {signer donorBal escrow amount : Nat}
    (h1 : c.start_at ≤ now) (h2 : now ≤ c.end_at) (h3 : c.donation_completed = false)
    (h4 : 0 < amount) (h5 : min amount (c.goal - c.total_donated) ≤ donorBal) :
    donate now c contrib signer donorBal escrow amount =
      .ok ({ c with
          total_donated := c.total_donated + min amount (c.goal - c.total_donated),
          donation_completed :=
            decide (c.goal ≤ c.total_donated + min amount (c.goal - c.total_donated)) },
        { contrib with
          authority := signer,
          amount := contrib.amount + min amount (c.goal - c.total_donated) },
        donorBal - min amount (c.goal - c.total_donated),
        escrow + min amount (c.goal - c.total_donated)) := by
  unfold donate transfer
  rw [if_neg (by omega), if_neg (by omega), if_neg (by simp [h3]), if_neg (by omega)]
  dsimp only []
  rw [if_neg (by omega)]
  dsimp only []
  by_cases hreach : c.goal ≤ c.total_donated + min amount (c.goal - c.total_donated)
  · rw [if_pos hreach]
    simp [decide_eq_true hreach]
  · rw [if_neg hreach]
    simp [h3, decide_eq_false hreach]

/-- Forward evaluation of `donate` when the donor balance cannot cover the
capped amount: the CPI transfer fails and the whole instruction fails. -/
theorem donate_insufficient_eq {now : Int} {c : Campaign} {contrib : Contribution}
    {signer donorBal escrow amount : Nat}
    (h1 : c.start_at ≤ now) (h2 : now ≤ c.end_at) (h3 : c.donation_completed = false)
    (h4 : 0 < amount) (h5 : donorBal < min amount (c.goal - c.total_donated)) :
    donate now c contrib signer donorBal escrow amount = .error .InsufficientFunds := by
  unfold donate transfer
  rw [if_neg (by omega), if_neg (by omega), if_neg (by simp [h3]), if_neg (by omega)]
  dsimp only []
  rw [if_pos h5]

/-!
Concrete reachability facts shared by several developments below.
-/

theorem reach_camp0 : Reachable 0 camp0 :=
  Reachable.created 0 sT sD sO sL sI 1 100 10 20 camp0 rfl

theorem step_camp0_camp1 : Step 0 camp0 5 camp1 :=
  Step.cancel_step 0 5 camp0 camp1 (by omega) rfl

theorem reach_camp1 : Reachable 5 camp1 :=
  Reachable.step 0 camp0 5 camp1 reach_camp0 step_camp0_camp1

theorem step_camp1_camp2 : Step 5 camp1 30 camp2 :=
  Step.close_step 5 30 camp1 camp2 (by omega) rfl

theorem reach_camp2 : Reachable 30 camp2 :=
  Reachable.step 5 camp1 30 camp2 reach_camp1 step_camp1_camp2

/-!
Claims.
-/

/-- C1: the claim states that a refund/cancel call on a failed campaign
zeroes `contribution.amount` and that a second call fails with
`NothingToRefund`.  The code does neither: `cancel_donation` (and
`refund_donations`) never writes to the contribution record, the program
has no `NothingToRefund` error at all, and a second call on the very same
contribution transfers `contribution.amount` out of escrow again.  This
theorem exhibits the double transfer on a concrete reachable scenario:
goal 100, window [10, 20], donor 7 donates 60 at time 15 (campaign
account starts with 60 lamports of rent, so escrow holds 120 after the
donation); at time 30 the first settlement call pays 60 out and leaves
`contribution.amount = 60`, and a second identical call pays another 60. -/
theorem cancel_donation_double_transfer :
    donate 15 camp0 contrib0 7 100 60 60 = .ok (campA, contribA, 40, 120) ∧
    cancel_donation 30 campA contribA 120 0 = .ok (campA, contribA, 60, 60) ∧
    contribA.amount = 60 ∧
    cancel_donation 30 campA contribA 60 60 = .ok (campA, contribA, 0, 120) :=
  ⟨rfl, rfl, rfl, rfl⟩

/-- C2: a successful `donate` transfers and credits exactly
`accepted = min(amount, max(goal - total_donated, 0))` (the `Nat`
subtraction `c.goal - c.total_donated` is the code's
`checked_sub(..).unwrap_or(0)`), and on every reachable state
`total_donated ≤ goal`. -/
theorem donate_capped_and_total_bounded :
    (∀ (now : Int) (c : Campaign) (contrib : Contribution)
        (signer donorBal escrow amount : Nat),
      c.start_at ≤ now → now ≤ c.end_at → c.donation_completed = false → 0 < amount →
      min amount (c.goal - c.total_donated) ≤ donorBal →
      donate now c contrib signer donorBal escrow amount =
        .ok ({ c with
            total_donated := c.total_donated + min amount (c.goal - c.total_donated),
            donation_completed :=
              decide (c.goal ≤ c.total_donated + min amount (c.goal - c.total_donated)) },
          { contrib with
            authority := signer,
            amount := contrib.amount + min amount (c.goal - c.total_donated) },
          donorBal - min amount (c.goal - c.total_donated),
          escrow + min amount (c.goal - c.total_donated))) ∧
    (∀ (t : Int) (c : Campaign), Reachable t c → c.total_donated ≤ c.goal) :=
  ⟨fun _ _ _ _ _ _ _ h1 h2 h3 h4 h5 => donate_ok_eq h1 h2 h3 h4 h5,
   fun _ _ h => (reachable_inv h).1.1⟩

/-- Witness for C2: donor 7 offers 60 against goal 100 at time 15 and
exactly 60 is credited; the freshly created `camp0` satisfies the bound. -/
theorem donate_capped_and_total_bounded_witness :
    donate 15 camp0 contrib0 7 100 60 60 = .ok (campA, contribA, 40, 120) ∧
    camp0.total_donated ≤ camp0.goal := by
  constructor
  · have h := donate_capped_and_total_bounded.1 15 camp0 contrib0 7 100 60 60
      (by decide) (by decide) rfl (by decide) (by decide)
    exact h
  · exact donate_capped_and_total_bounded.2 0 camp0 reach_camp0

/-- C3: `claim_donations` fails with `CampaignNotOver` when `now ≤ end_at`
(the spec's `NotYetOver`), with `DonationNotCompleted` when the goal was
not met (the spec's `GoalNotMet`), with `DonationsClaimed` when already
claimed (the spec's `AlreadyClaimed`); on success it transfers
`total_donated` to the authority and latches `claimed := true`; no step
ever resets `claimed`, so a second attempt always hits the
`DonationsClaimed` branch, which returns an error and hence moves no
funds. -/
theorem claim_once :
    (∀ (now : Int) (c : Campaign) (escrow authBal : Nat),
      now ≤ c.end_at → claim_donations now c escrow authBal = .error .CampaignNotOver) ∧
    (∀ (now : Int) (c : Campaign) (escrow authBal : Nat),
      c.end_at < now → c.donation_completed = false →
      claim_donations now c escrow authBal = .error .DonationNotCompleted) ∧
    (∀ (now : Int) (c : Campaign) (escrow authBal : Nat),
      c.end_at < now → c.donation_completed = true → c.claimed = true →
      claim_donations now c escrow authBal = .error .DonationsClaimed) ∧
    (∀ (now : Int) (c : Campaign) (escrow authBal : Nat),
      c.end_at < now → c.donation_completed = true → c.claimed = false →
      claim_donations now c escrow authBal =
        .ok ({ c with claimed := true },
          wrapSub escrow c.total_donated, wrapAdd authBal c.total_donated)) ∧
    (∀ (t : Int) (c : Campaign) (t' : Int) (c' : Campaign),
      Step t c t' c' → c.claimed = true → c'.claimed = true) := by
  refine ⟨?_, ?_, ?_, ?_, fun _ _ _ _ hs => (step_frame hs).2.2.2.2.2⟩
  · intro now c escrow authBal h
    unfold claim_donations
    rw [if_pos h]
  · intro now c escrow authBal h1 h2
    unfold claim_donations
    rw [if_neg (by omega), if_pos (by simp [h2])]
  · intro now c escrow authBal h1 h2 h3
    unfold claim_donations
    rw [if_neg (by omega), if_neg (by simp [h2]), if_pos h3]
  · intro now c escrow authBal h1 h2 h3
    unfold claim_donations
    rw [if_neg (by omega), if_neg (by simp [h2]), if_neg (by simp [h3])]

/-- Witness for C3: each precondition branch and the success branch of
`claim_donations` on concrete states, and `claimed` surviving a later
step. -/
theorem claim_once_witness :
    claim_donations 20 campB 100 0 = .error .CampaignNotOver ∧
    claim_donations 30 campA 100 0 = .error .DonationNotCompleted ∧
    claim_donations 30 campBclaimed 100 0 = .error .DonationsClaimed ∧
    claim_donations 30 campB 100 0 = .ok (campBclaimed, 0, 100) ∧
    campBclaimedClosed.claimed = true := by
  refine ⟨claim_once.1 20 campB 100 0 (by decide),
    claim_once.2.1 30 campA 100 0 (by decide) rfl,
    claim_once.2.2.1 30 campBclaimed 100 0 (by decide) rfl rfl,
    ?_,
    claim_once.2.2.2.2 30 campBclaimed 40 campBclaimedClosed
      (Step.close_step 30 40 campBclaimed campBclaimedClosed (by omega) rfl) rfl⟩
  have h := claim_once.2.2.2.1 30 campB 100 0 (by decide) rfl rfl
  rw [h]
  rfl

/-- C4: on every reachable state `donation_completed` agrees with
`total_donated ≥ goal`; no step ever resets it from `true` to `false`;
and at the level of a single successful `donate`, the flag was `false`
before and is `true` afterwards exactly when the new total reaches the
goal. -/
theorem donation_completed_iff_goal_reached :
    (∀ (t : Int) (c : Campaign), Reachable t c →
      c.donation_completed = decide (c.goal ≤ c.total_donated)) ∧
    (∀ (t : Int) (c : Campaign) (t' : Int) (c' : Campaign),
      Step t c t' c' → c.donation_completed = true → c'.donation_completed = true) ∧
    (∀ (now : Int) (c : Campaign) (contrib : Contribution)
        (signer donorBal escrow amount : Nat)
        (c' : Campaign) (contrib' : Contribution) (donorBal' escrow' : Nat),
      donate now c contrib signer donorBal escrow amount =
        .ok (c', contrib', donorBal', escrow') →
      c.donation_completed = false ∧
        (c'.donation_completed = true ↔ c.goal ≤ c'.total_donated)) := by
  refine ⟨fun _ _ h => (reachable_inv h).1.2.1,
    fun _ _ _ _ hs => (step_frame hs).2.2.2.2.1, ?_⟩
  intro now c contrib signer donorBal escrow amount c' contrib' donorBal' escrow' h
  obtain ⟨_, _, hcompleted, _, _, hc, _, _, _⟩ := donate_ok_inv h
  subst hc
  exact ⟨hcompleted, by simp⟩

/-- Witness for C4: the invariant on the freshly created `camp0`, the flag
surviving the close step on `campB`, and the donation that fills `camp0`
to its goal setting the flag exactly then. -/
theorem donation_completed_iff_goal_reached_witness :
    camp0.donation_completed = decide (camp0.goal ≤ camp0.total_donated) ∧
    campBclosed.donation_completed = true ∧
    (campB.donation_completed = true ↔ campB.goal ≤ campB.total_donated) := by
  refine ⟨donation_completed_iff_goal_reached.1 0 camp0 reach_camp0,
    donation_completed_iff_goal_reached.2.1 30 campB 40 campBclosed
      (Step.close_step 30 40 campB campBclosed (by omega) rfl) rfl,
    ?_⟩
  have h := donation_completed_iff_goal_reached.2.2 15 camp0 contrib0 7 200 60 150
    campB contribB 100 160 rfl
  exact h.2

/-- C5 counterexample: `Cancelled` is not terminal.  The campaign `camp1`
is reachable at time 5 with status `Cancelled` (cancelled before
`start_at = 10`), and `close_campaign` at time 30 is a legal later step
that changes its status to `Closed`, because `close_campaign` never
inspects the current status. -/
theorem cancelled_not_terminal_cex :
    Reachable 5 camp1 ∧ camp1.status = CampaignStatus.Cancelled ∧
    Step 5 camp1 30 camp2 ∧ camp2.status = CampaignStatus.Closed ∧
    camp2.status ≠ CampaignStatus.Cancelled :=
  ⟨reach_camp1, rfl, step_camp1_camp2, rfl, by decide⟩

/-- C5 amended: `Cancelled` is entered only strictly before `start_at` and
`Closed` only strictly after `end_at`; `Closed` is terminal on reachable
states; but `Cancelled` is terminal only up to `close_campaign`: the one
status change possible from `Cancelled` is to `Closed`, strictly after
`end_at`. -/
theorem status_transitions_amended :
    (∀ (t : Int) (c : Campaign) (t' : Int) (c' : Campaign),
      Step t c t' c' → c.status ≠ CampaignStatus.Cancelled →
      c'.status = CampaignStatus.Cancelled → t' < c.start_at) ∧
    (∀ (t : Int) (c : Campaign) (t' : Int) (c' : Campaign),
      Step t c t' c' → c.status ≠ CampaignStatus.Closed →
      c'.status = CampaignStatus.Closed → c.end_at < t') ∧
    (∀ (t : Int) (c : Campaign) (t' : Int) (c' : Campaign),
      Reachable t c → c.status = CampaignStatus.Closed → Step t c t' c' →
      c'.status = CampaignStatus.Closed) ∧
    (∀ (t : Int) (c : Campaign) (t' : Int) (c' : Campaign),
      Step t c t' c' → c.status = CampaignStatus.Cancelled →
      c'.status = CampaignStatus.Cancelled ∨
        (c'.status = CampaignStatus.Closed ∧ c.end_at < t')) := by
  refine ⟨?_, ?_, ?_, ?_⟩
  · intro t c t' c' hs hne hcanc
    rcases step_status_cases hs with h | ⟨_, hlt⟩ | ⟨hclosed, _⟩
    · exact absurd (h ▸ hcanc) hne
    · exact hlt
    · rw [hclosed] at hcanc; cases hcanc
  · intro t c t' c' hs hne hclosed
    rcases step_status_cases hs with h | ⟨hcanc, _⟩ | ⟨_, hlt⟩
    · exact absurd (h ▸ hclosed) hne
    · rw [hcanc] at hclosed; cases hclosed
    · exact hlt
  · intro t c t' c' hr hclosed hs
    have hinv := (reachable_inv hr).2 hclosed
    have ht := (step_frame hs).1
    rcases step_status_cases hs with h | ⟨_, hlt⟩ | ⟨h, _⟩
    · rw [h]; exact hclosed
    · omega
    · exact h
  · intro t c t' c' hs hcanc
    rcases step_status_cases hs with h | ⟨h, _⟩ | ⟨h, hlt⟩
    · exact Or.inl (h ▸ hcanc)
    · exact Or.inl h
    · exact Or.inr ⟨h, hlt⟩

/-- Witness for C5 amended: the concrete trace
create → cancel (time 5) → close (time 30) instantiates every conjunct. -/
theorem status_transitions_amended_witness :
    ((5 : Int) < camp0.start_at) ∧ (camp1.end_at < (30 : Int)) ∧
    camp2.status = CampaignStatus.Closed ∧
    (camp2.status = CampaignStatus.Cancelled ∨
      (camp2.status = CampaignStatus.Closed ∧ camp1.end_at < (30 : Int))) :=
  ⟨status_transitions_amended.1 0 camp0 5 camp1 step_camp0_camp1 (by decide) rfl,
   status_transitions_amended.2.1 5 camp1 30 camp2 step_camp1_camp2 (by decide) rfl,
   status_transitions_amended.2.2.1 30 camp2 40 camp2 reach_camp2 rfl
     (Step.close_step 30 40 camp2 camp2 (by omega) rfl),
   status_transitions_amended.2.2.2 5 camp1 30 camp2 step_camp1_camp2 rfl⟩

/-- C6: when the donor balance cannot cover the capped amount, the CPI
transfer fails and `donate` returns an error.  In this embedding an
`.error` result is precisely "the whole operation fails and no record
mutation occurs": no updated campaign, contribution or balances are
produced, so `total_donated`, `contribution.amount` and
`donation_completed` keep their prior values.  The record mutations in the
source (lines 110-117) all sit after the `?`-propagated transfer on line
107, which this reflects. -/
theorem donate_transfer_failure_no_mutation :
    ∀ (now : Int) (c : Campaign) (contrib : Contribution)
      (signer donorBal escrow amount : Nat),
      c.start_at ≤ now → now ≤ c.end_at → c.donation_completed = false → 0 < amount →
      donorBal < min amount (c.goal - c.total_donated) →
      donate now c contrib signer donorBal escrow amount = .error .InsufficientFunds :=
  fun _ _ _ _ _ _ _ h1 h2 h3 h4 h5 => donate_insufficient_eq h1 h2 h3 h4 h5

/-- Witness for C6: donor 7 holds 30 lamports but the capped donation is
60, so the donation fails. -/
theorem donate_transfer_failure_no_mutation_witness :
    donate 15 camp0 contrib0 7 30 60 60 = .error .InsufficientFunds :=
  donate_transfer_failure_no_mutation 15 camp0 contrib0 7 30 60 60
    (by decide) (by decide) rfl (by decide) (by decide)

/-- C7: `extend_campaign` fails with `EndTimeSmall` (the spec's
`WindowTooShort`) when `new_end_at ≤ end_at`, then with `StartTimeEarly`
(the spec's `InvalidStartTime`) when `new_end_at ≤ now`; on success it
sets `end_at := new_end_at`; and across every step `end_at` never
decreases. -/
theorem extend_monotone :
    (∀ (now new_end_at : Int) (c : Campaign),
      new_end_at ≤ c.end_at →
      extend_campaign now c new_end_at = .error .EndTimeSmall) ∧
    (∀ (now new_end_at : Int) (c : Campaign),
      c.end_at < new_end_at → new_end_at ≤ now →
      extend_campaign now c new_end_at = .error .StartTimeEarly) ∧
    (∀ (now new_end_at : Int) (c : Campaign),
      c.end_at < new_end_at → now < new_end_at →
      extend_campaign now c new_end_at = .ok { c with end_at := new_end_at }) ∧
    (∀ (t : Int) (c : Campaign) (t' : Int) (c' : Campaign),
      Step t c t' c' → c.end_at ≤ c'.end_at) := by
  refine ⟨?_, ?_, ?_, fun _ _ _ _ hs => (step_frame hs).2.2.1⟩
  · intro now nea c h
    unfold extend_campaign
    rw [if_pos h]
  · intro now nea c h1 h2
    unfold extend_campaign
    rw [if_neg (by omega), if_pos h2]
  · intro now nea c h1 h2
    unfold extend_campaign
    rw [if_neg (by omega), if_neg (by omega)]

/-- Witness for C7: a non-lengthening target, a target in the past, a
successful extension, and `end_at` preserved by the cancel step. -/
theorem extend_monotone_witness :
    extend_campaign 15 camp0 20 = .error .EndTimeSmall ∧
    extend_campaign 50 camp0 30 = .error .StartTimeEarly ∧
    extend_campaign 15 camp0 40 = .ok { camp0 with end_at := 40 } ∧
    camp0.end_at ≤ camp1.end_at :=
  ⟨extend_monotone.1 15 20 camp0 (by decide),
   extend_monotone.2.1 50 30 camp0 (by decide) (by decide),
   extend_monotone.2.2.1 15 40 camp0 (by decide) (by decide),
   extend_monotone.2.2.2 0 camp0 5 camp1 step_camp0_camp1⟩

/-- C8: `update_campaign_metadata` always succeeds (no time or status
precondition), replaces exactly the supplied text fields (`getD` keeps the
prior value when the option is `none`), and the record-update form of the
right-hand side leaves `authority`, `goal`, `total_donated`,
`donation_completed`, `claimed`, `start_at`, `end_at` and `status`
untouched. -/
theorem update_metadata_frame :
    ∀ (c : Campaign) (title description org_name project_link project_image : Option String),
      update_campaign_metadata c title description org_name project_link project_image =
        .ok { c with
          title := title.getD c.title
          description := description.getD c.description
          org_name := org_name.getD c.org_name
          project_link := project_link.getD c.project_link
          project_image := project_image.getD c.project_image } :=
  update_campaign_metadata_eq

/-- C9: `cancel_donation` and `refund_donations` are extensionally equal
state transformers: the two source bodies perform the same checks in the
same order, fail with the same error codes, and on success move the same
lamports and leave the records identical (the only source difference, the
emitted event type and log string, lies outside the account-state model).
Here the two independently translated definitions are definitionally
equal. -/
theorem cancel_refund_same_operation : cancel_donation = refund_donations := rfl

/-- C10: `donate` never inspects `campaign.status`.  `camp1` is reachable
at time 5 with status `Cancelled` (the campaign was cancelled at time 5,
before `start_at = 10`), the timestamp 15 lies inside the donation
window, and `donate` nonetheless succeeds, moves 50 lamports into escrow
and credits `total_donated`, with the status still `Cancelled`. -/
theorem donate_ignores_cancelled_status :
    Reachable 5 camp1 ∧ camp1.status = CampaignStatus.Cancelled ∧
    camp1.start_at ≤ 15 ∧ (15 : Int) ≤ camp1.end_at ∧
    donate 15 camp1 contrib0 7 100 0 50 = .ok (camp1d, contrib1, 50, 50) ∧
    camp1d.total_donated = camp1.total_donated + 50 ∧
    camp1d.status = CampaignStatus.Cancelled :=
  ⟨reach_camp1, rfl, by decide, by decide, rfl, rfl, rfl⟩

end Crowdfunding
